import Mathlib

/-!
# Verification of the price-comparison search service

A shallow embedding, in Lean 4, of the search orchestration core of the
price-comparison service: the price/rating normalizer (`pkg/utils/price.go`),
the cache-key derivation (`pkg/cache`, `GenerateSearchKey`), and the search
service pipeline (`internal/services`: validation, concurrent scrape fan-out,
filtering, sorting via Go's `sort.Slice`, pagination, and the orchestrating
`SearchProducts`).

Modelling conventions:
* Go `float64` price/rating values are modelled as exact rationals (`Rat`);
  the decimal strings occurring in the program are tiny, so the binary
  rounding of `float64` never changes any comparison or value the theorems
  mention.
* Go `int` is modelled as unbounded `Int` (no claim depends on 64-bit
  wrap-around).
* Concurrency in the scrape fan-out is modelled by an explicit merge
  schedule: each goroutine appends its whole result slice under a mutex, so
  the aggregate is the concatenation of the per-scraper contributions in an
  arbitrary order (`sched`), which theorems quantify over (restricted to
  permutations of the spawned-scraper list).
* External effects (Redis get/set, scraper invocation) are recorded in an
  effect trace and their results are supplied by an environment (`Env`)
  of oracles.
-/

namespace PriceComparison

/-- `models.Product` (internal/models): one listing scraped from a source.
`Price` is the raw price text; `PriceValue` is the numeric value attached by
`processProducts`. `ScrapedAt` is an abstract timestamp. -/
structure Product where
  id : String := ""
  name : String := ""
  price : String := ""
  currency : String := ""
  url : String := ""
  image : String := ""
  rating : String := ""
  reviews : String := ""
  source : String := ""
  scrapedAt : Nat := 0
  inStock : Bool := false
  description : String := ""
  priceValue : Rat := 0
deriving DecidableEq, Repr

/-- `models.Filters`: zero values (`0`, `none`, `""`) mean "not specified". -/
structure Filters where
  minPrice : Rat := 0
  maxPrice : Rat := 0
  inStock : Option Bool := none
  minRating : Rat := 0
  source : String := ""
deriving DecidableEq, Repr

/-- `models.Sort` (named `SortSpec` here because `Sort` is reserved in Lean). -/
structure SortSpec where
  field : String
  order : String
deriving DecidableEq, Repr

/-- `models.SearchParams`. -/
structure SearchParams where
  query : String := ""
  country : String := ""
  page : Int := 0
  limit : Int := 0
  filters : Option Filters := none
  sortSpec : Option SortSpec := none
deriving DecidableEq, Repr

/-- `models.SearchResponse`.  `duration` is an opaque string. -/
structure SearchResponse where
  query : String := ""
  products : List Product := []
  total : Int := 0
  page : Int := 0
  limit : Int := 0
  totalPages : Int := 0
  source : String := ""
  filters : Option Filters := none
  sortSpec : Option SortSpec := none
  duration : String := ""
deriving DecidableEq, Repr

/-! ## Price / rating normalizer (`pkg/utils/price.go`) -/

/-- A character matched by the Go regexp `[\d.]+` (`\d` in Go RE2 is `[0-9]`). -/
def isNumChar (c : Char) : Bool := c.isDigit || c = '.'

/-- `regexp.MustCompile("[\\d.]+").FindString`: the leftmost maximal run of
digits and dots, or `none` when there is no such run. -/
def findNumToken : List Char → Option (List Char)
  | [] => none
  | c :: cs => if isNumChar c then some (c :: cs.takeWhile isNumChar) else findNumToken cs

/-- Value of a string of decimal digits. -/
def digitsToNat (ds : List Char) : Nat := ds.foldl (fun n c => 10 * n + (c.toNat - 48)) 0

/-- Smallest positive value rejected by `strconv.ParseFloat(_, 64)` as out of
range: the numeral is `2 ^ 1024 - 2 ^ 970`, the rounding boundary to `+Inf`
(written as an explicit numeral because kernel evaluation guards large
exponentation). -/
def floatOverflowBound : Nat := 179769313486231580793728971405303415079934132710037826936173778980444968292764750946649017977587207096330286416692887910946555547851940402630657488671505820681908902000708383676273854845817711531764475730270069855571366959622842914819860834936475292719074168444365510704342711559699508093042880177904174497792

/-- `strconv.ParseFloat` restricted to the strings `findNumToken` can produce
(runs of digits and dots): succeeds iff there is at most one dot and at least
one digit and the value is in `float64` range; the value is kept as an exact
rational instead of being rounded to a `float64` (all decimal strings in this
development are exactly comparable either way).  The rational is built with
`mkRat` because the `Rat` field arithmetic of core Lean does not reduce in
the kernel. -/
def parseFloatToken (t : List Char) : Option Rat :=
  if t.all isNumChar ∧ t.count '.' ≤ 1 ∧ t.any Char.isDigit then
    let ip := t.takeWhile (fun c => c ≠ '.')
    let fp := (t.dropWhile (fun c => c ≠ '.')).drop 1
    let scale := (10 : Nat) ^ fp.length
    let q : Rat := mkRat (digitsToNat ip * scale + digitsToNat fp) scale
    if q < mkRat (Int.ofNat floatOverflowBound) 1 then some q else none
  else none

/-- `strings.TrimSpace` on a character list (`Char.isWhitespace` covers the
whitespace occurring in price strings; Go additionally trims exotic Unicode
spaces, which changes nothing here because the numeric-token search skips
non-numeric characters anyway). -/
def trimChars (s : List Char) : List Char :=
  ((s.dropWhile Char.isWhitespace).reverse.dropWhile Char.isWhitespace).reverse

/-- `strings.ReplaceAll(s, "$", "")` then `ReplaceAll(_, ",", "")` then
`TrimSpace`: the cleanup step of `utils.ParsePrice`. -/
def cleanPriceChars (s : List Char) : List Char :=
  trimChars ((s.filter (fun c => c ≠ '$')).filter (fun c => c ≠ ','))

/-- `utils.ParsePrice`: total; `0` whenever no numeric token is found or the
token fails to parse. -/
def ParsePrice (s : String) : Rat :=
  if s = "" then 0
  else
    match findNumToken (cleanPriceChars s.data) with
    | none => 0
    | some t =>
      match parseFloatToken t with
      | none => 0
      | some q => q

/-- `utils.ParseRating`: like `ParsePrice` but with no cleanup step. -/
def ParseRating (s : String) : Rat :=
  if s = "" then 0
  else
    match findNumToken s.data with
    | none => 0
    | some t =>
      match parseFloatToken t with
      | none => 0
      | some q => q

example : ParsePrice "" = 0 := by decide
example : ParsePrice "$1,234.56" = mkRat 123456 100 := by decide
example : ParsePrice "no price" = 0 := by decide
example : ParsePrice "₹1,999" = 1999 := by decide
example : ParseRating "4.5 out of 5 stars" = mkRat 45 10 := by decide
example : mkRat 123456 100 = (1234.56 : Rat) := by rw [Rat.mkRat_eq_div]; norm_num

/-! ## String helpers

Core Lean's `String.toLower`, `String.toUpper`, `String.splitOn` and the
`String` ordering are implemented with byte-position loops that do not reduce
in the kernel, so the (equivalent) character-list versions used by the Go
code are defined here directly. -/

/-- `strings.ToLower` (all source/filter strings in this program are ASCII,
where Go and Unicode simple lowercasing agree with `Char.toLower`). -/
def toLowerStr (s : String) : String := String.mk (s.data.map Char.toLower)

/-- `strings.ToUpper`. -/
def toUpperStr (s : String) : String := String.mk (s.data.map Char.toUpper)

/-- Does `hay` start with `needle`? -/
def leadsWith : List Char → List Char → Bool
  | [], _ => true
  | _ :: _, [] => false
  | a :: as, b :: bs => a = b && leadsWith as bs

/-- `strings.Contains (String.mk hay) (String.mk needle)`. -/
def containsSub (hay needle : List Char) : Bool :=
  if leadsWith needle hay then true
  else
    match hay with
    | [] => false
    | _ :: t => containsSub t needle

/-- Go `string <` (bytewise lexicographic; UTF-8 byte order coincides with
code-point order, so comparing `Char`s is equivalent). -/
def strLt (a b : String) : Bool := charsLt a.data b.data
where
  charsLt : List Char → List Char → Bool
    | [], [] => false
    | [], _ :: _ => true
    | _ :: _, [] => false
    | a :: as, b :: bs => if a < b then true else if b < a then false else charsLt as bs

example : containsSub "ebay (mock)".data "bay".data = true := by decide
example : containsSub "abc".data "abd".data = false := by decide
example : strLt "abc" "abd" = true := by decide

/-! ## Post-processing: normalization and the filter stage
(`SearchService.processProducts`, `SearchService.applyFilters`) -/

/-- `processProducts`: attach the numeric price to every product. -/
def processProducts (products : List Product) : List Product :=
  products.map fun p => { p with priceValue := ParsePrice p.price }

/-- The source filter of `applyFilters`: bidirectional case-insensitive
substring match (`strings.Contains(productSource, filterSource) ||
strings.Contains(filterSource, productSource)` after `ToLower`). -/
def sourceMatches (filterSource productSource : String) : Bool :=
  let f := (toLowerStr filterSource).data
  let p := (toLowerStr productSource).data
  containsSub p f || containsSub f p

/-- The stock `continue` branch: fires iff a stock state is specified and the
product's flag differs (`filters.InStock != nil && product.InStock !=
*filters.InStock`). -/
def stockMismatch : Option Bool → Bool → Bool
  | some b, s => s != b
  | none, _ => false

/-- The body of the `applyFilters` loop: `true` iff none of the `continue`
branches fires for `p`. -/
def keepProduct (filters : Filters) (p : Product) : Bool :=
  if 0 < filters.minPrice ∧ p.priceValue < filters.minPrice then false
  else if 0 < filters.maxPrice ∧ filters.maxPrice < p.priceValue then false
  else if stockMismatch filters.inStock p.inStock then false
  else if 0 < filters.minRating ∧ ParseRating p.rating < filters.minRating then false
  else if filters.source ≠ "" ∧ sourceMatches filters.source p.source = false then false
  else true

/-- `applyFilters`: `nil` filters pass everything through; otherwise keep
exactly the products for which every specified predicate holds. -/
def applyFilters (products : List Product) : Option Filters → List Product
  | none => products
  | some filters => products.filter (keepProduct filters)

/-! ## The sort stage

`SearchService.applySorting` delegates to Go's `sort.Slice`, which (since
Go 1.19, and in the Go 1.21 this service is built with — see the Dockerfile)
is the pattern-defeating quicksort of `sort/zsortfunc.go`, an **unstable**
sort.  The functions below are a faithful port of that algorithm, operating
on a `List` with an index `swap` primitive exactly as `lessSwap` does.
`while` loops are written as fuel recursion; every call site passes fuel
that strictly exceeds the loop's iteration count (each loop either moves an
index monotonically inside `[lo, hi)` or shrinks `j - i`), so the fuel-
exhausted branches are never taken. -/

/-- `data.Less i j` on the current list (indices in range by the algorithm's
invariants; out-of-range reads answer `false`). -/
def lessAt (less : α → α → Bool) (l : List α) (i j : Nat) : Bool :=
  match l.get? i, l.get? j with
  | some x, some y => less x y
  | _, _ => false

/-- `data.Swap i j` (identity when an index is out of range, which the
algorithm never does). -/
def swapAt (l : List α) (i j : Nat) : List α :=
  if h1 : i < l.length then
    if h2 : j < l.length then (l.set i l[j]).set j l[i] else l
  else l

/-- Inner loop of `insertionSort_func`: bubble the element at `j` down while
it is smaller than its left neighbour and `j > lo`. -/
def insSortInner (less : α → α → Bool) (lo : Nat) : List α → Nat → List α
  | l, 0 => l
  | l, j+1 =>
    if lo < j+1 ∧ lessAt less l (j+1) j then insSortInner less lo (swapAt l (j+1) j) j
    else l

/-- Outer loop of `insertionSort_func` (`rem` counts the remaining values of
`i`, i.e. `hi - i`). -/
def insSortOuter (less : α → α → Bool) (lo : Nat) : List α → Nat → Nat → List α
  | l, _, 0 => l
  | l, i, rem+1 => insSortOuter less lo (insSortInner less lo l i) (i+1) rem

/-- `insertionSort_func(data, lo, hi)`. -/
def insertionSortRange (less : α → α → Bool) (l : List α) (lo hi : Nat) : List α :=
  insSortOuter less lo l (lo+1) (hi - (lo+1))

/-- `siftDown_func` (max-heap sift-down inside `[first, first+hi)`); the root
index strictly increases, so `hi+1` fuel suffices. -/
def siftDownLoop (less : α → α → Bool) (hi first : Nat) : Nat → List α → Nat → List α
  | 0, l, _ => l
  | fuel+1, l, root =>
    let child := 2*root + 1
    if child ≥ hi then l
    else
      let child := if child+1 < hi ∧ lessAt less l (first+child) (first+child+1) then child+1 else child
      if lessAt less l (first+root) (first+child) then
        siftDownLoop less hi first fuel (swapAt l (first+root) (first+child)) child
      else l

def siftDownRange (less : α → α → Bool) (l : List α) (lo hi first : Nat) : List α :=
  siftDownLoop less hi first (hi+1) l lo

/-- Heap-construction loop of `heapSort_func` (`c+1` plays the role of the
loop counter `i = c`, descending). -/
def heapBuildLoop (less : α → α → Bool) (hi first : Nat) : List α → Nat → List α
  | l, 0 => l
  | l, c+1 => heapBuildLoop less hi first (siftDownRange less l c hi first) c

/-- Pop loop of `heapSort_func`. -/
def heapPopLoop (less : α → α → Bool) (first : Nat) : List α → Nat → List α
  | l, 0 => l
  | l, c+1 => heapPopLoop less first (siftDownRange less (swapAt l first (first+c)) 0 c first) c

/-- `heapSort_func(data, lo, hi)`. -/
def heapSortRange (less : α → α → Bool) (l : List α) (lo hi : Nat) : List α :=
  let hiN := hi - lo
  heapPopLoop less lo (heapBuildLoop less hiN lo l ((hiN - 1)/2 + 1)) hiN

/-- `reverseRange_func`. -/
def reverseLoop : Nat → List α → Nat → Nat → List α
  | 0, l, _, _ => l
  | fuel+1, l, i, j => if i < j then reverseLoop fuel (swapAt l i j) (i+1) (j-1) else l

def reverseRangeL (l : List α) (lo hi : Nat) : List α := reverseLoop (hi+1) l lo (hi-1)

/-- One step of the `xorshift` PRNG used by `breakPatterns_func`
(64-bit state). -/
def xorshiftNext (r : Nat) : Nat :=
  let u64 : Nat := 18446744073709551616
  let r := (r ^^^ (r <<< 13)) % u64
  let r := r ^^^ (r >>> 7)
  (r ^^^ (r <<< 17)) % u64

/-- `bits.Len` for `uint`. -/
def bitsLen (n : Nat) : Nat := if n = 0 then 0 else Nat.log2 n + 1

/-- `breakPatterns_func`: scatter three elements around the middle using the
`xorshift` stream seeded with the range length. -/
def breakPatternsRange (l : List α) (lo hi : Nat) : List α :=
  let len := hi - lo
  if len ≥ 8 then
    let modulus := 1 <<< bitsLen len
    let idx := lo + (len/4)*2 - 1
    let pick := fun (r : Nat) =>
      let o := r &&& (modulus - 1)
      if o ≥ len then o - len else o
    let r1 := xorshiftNext len
    let l := swapAt l (idx - 1 + 0) (lo + pick r1)
    let r2 := xorshiftNext r1
    let l := swapAt l (idx - 1 + 1) (lo + pick r2)
    let r3 := xorshiftNext r2
    swapAt l (idx - 1 + 2) (lo + pick r3)
  else l

/-- Scan of `partialInsertionSort_func`: advance `i` past the already-ordered
run. -/
def psAdvance (less : α → α → Bool) (b : Nat) : Nat → List α → Nat → Nat
  | 0, _, i => i
  | fuel+1, l, i =>
    if i < b ∧ lessAt less l i (i-1) = false then psAdvance less b fuel l (i+1) else i

/-- Left shift of `partialInsertionSort_func` (note the Go bound is `j ≥ 1`,
not `j > lo`). -/
def psShiftLeft (less : α → α → Bool) : List α → Nat → List α
  | l, 0 => l
  | l, j+1 => if lessAt less l (j+1) j then psShiftLeft less (swapAt l (j+1) j) j else l

/-- Right shift of `partialInsertionSort_func`. -/
def psShiftRight (less : α → α → Bool) (b : Nat) : Nat → List α → Nat → List α
  | 0, l, _ => l
  | fuel+1, l, j =>
    if j < b ∧ lessAt less l j (j-1) then psShiftRight less b fuel (swapAt l j (j-1)) (j+1)
    else l

/-- `partialInsertionSort_func` (at most `maxSteps = 5` adjacent out-of-order
pairs get fixed; no shifting below `shortestShifting = 50` elements). -/
def presortLoop (less : α → α → Bool) (lo b : Nat) : Nat → List α → Nat → (List α × Bool)
  | 0, l, _ => (l, false)
  | steps+1, l, i =>
    let i := psAdvance less b (b+1) l i
    if i = b then (l, true)
    else if b - lo < 50 then (l, false)
    else
      let l := swapAt l i (i-1)
      let l := if i - lo ≥ 2 then psShiftLeft less l (i-1) else l
      let l := if b - i ≥ 2 then psShiftRight less b (b+1) l (i+1) else l
      presortLoop less lo b steps l i

def presortCheck (less : α → α → Bool) (l : List α) (lo hi : Nat) : List α × Bool :=
  presortLoop less lo hi 5 l (lo+1)

/-- `order2_func`: put two indices in order, counting comparisons that were
inverted. -/
def order2 (less : α → α → Bool) (l : List α) (i j s : Nat) : Nat × Nat × Nat :=
  if lessAt less l j i then (j, i, s+1) else (i, j, s)

/-- `median_func`: index of the median of three. -/
def median3 (less : α → α → Bool) (l : List α) (a b c s : Nat) : Nat × Nat :=
  let t1 := order2 less l a b s
  let t2 := order2 less l t1.2.1 c t1.2.2
  let t3 := order2 less l t1.1 t2.1 t2.2.2
  (t3.2.1, t3.2.2)

/-- `medianAdjacent_func`. -/
def medianAdjacent (less : α → α → Bool) (l : List α) (i s : Nat) : Nat × Nat :=
  median3 less l (i-1) i (i+1) s

inductive SortedHint where
  | increasing
  | decreasing
  | unknown
deriving DecidableEq, Repr

/-- `choosePivot_func`: median (or ninther above 50 elements) with a
sortedness hint from the inversion count (`maxSwaps = 4*3 = 12`). -/
def choosePivotRange (less : α → α → Bool) (l : List α) (lo hi : Nat) : Nat × SortedHint :=
  let len := hi - lo
  let i0 := lo + (len/4)*1
  let j0 := lo + (len/4)*2
  let k0 := lo + (len/4)*3
  let t : Nat × Nat :=
    if len ≥ 8 then
      if len ≥ 50 then
        let t1 := medianAdjacent less l i0 0
        let t2 := medianAdjacent less l j0 t1.2
        let t3 := medianAdjacent less l k0 t2.2
        median3 less l t1.1 t2.1 t3.1 t3.2
      else median3 less l i0 j0 k0 0
    else (j0, 0)
  if t.2 = 0 then (t.1, SortedHint.increasing)
  else if t.2 = 12 then (t.1, SortedHint.decreasing)
  else (t.1, SortedHint.unknown)

/-- `partition_func` scan: advance `i` while `data.Less(i, lo)` holds and
`i ≤ j`. -/
def partAdvanceI (less : α → α → Bool) (lo : Nat) : Nat → List α → Nat → Nat → Nat
  | 0, _, i, _ => i
  | fuel+1, l, i, j =>
    if i ≤ j ∧ lessAt less l i lo then partAdvanceI less lo fuel l (i+1) j else i

/-- `partition_func` scan: decrease `j` while `!data.Less(j, lo)` holds and
`i ≤ j` (callers always have `i ≥ lo+1 ≥ 1`, so `j` stops at `i-1 ≥ 0`). -/
def partDecreaseJ (less : α → α → Bool) (lo i : Nat) (l : List α) : Nat → Nat
  | 0 => 0
  | j+1 =>
    if i ≤ j+1 ∧ lessAt less l (j+1) lo = false then partDecreaseJ less lo i l j else j+1

/-- Main exchange loop of `partition_func`. -/
def partLoop (less : α → α → Bool) (lo : Nat) : Nat → List α → Nat → Nat → (List α × Nat)
  | 0, l, _, j => (l, j)
  | fuel+1, l, i, j =>
    let i := partAdvanceI less lo (j+2) l i j
    let j := partDecreaseJ less lo i l j
    if i > j then (l, j)
    else partLoop less lo fuel (swapAt l i j) (i+1) (j-1)

/-- `partition_func(data, lo, hi, pivot)`: returns the final list, the new
pivot position and whether the range was already partitioned. -/
def partitionRange (less : α → α → Bool) (l : List α) (lo hi pivot : Nat) :
    List α × Nat × Bool :=
  let l := swapAt l lo pivot
  let j0 := hi - 1
  let i := partAdvanceI less lo (j0+2) l (lo+1) j0
  let j := partDecreaseJ less lo i l j0
  if i > j then (swapAt l j lo, j, true)
  else
    let l := swapAt l i j
    let res := partLoop less lo (hi+1) l (i+1) (j-1)
    (swapAt res.1 res.2 lo, res.2, false)

/-- `partitionEqual_func` scans. -/
def partEqAdvanceI (less : α → α → Bool) (lo : Nat) : Nat → List α → Nat → Nat → Nat
  | 0, _, i, _ => i
  | fuel+1, l, i, j =>
    if i ≤ j ∧ lessAt less l lo i = false then partEqAdvanceI less lo fuel l (i+1) j else i

def partEqDecreaseJ (less : α → α → Bool) (lo i : Nat) (l : List α) : Nat → Nat
  | 0 => 0
  | j+1 =>
    if i ≤ j+1 ∧ lessAt less l lo (j+1) then partEqDecreaseJ less lo i l j else j+1

/-- Exchange loop of `partitionEqual_func` (returns the final `i`). -/
def partEqLoop (less : α → α → Bool) (lo : Nat) : Nat → List α → Nat → Nat → (List α × Nat)
  | 0, l, i, _ => (l, i)
  | fuel+1, l, i, j =>
    let i := partEqAdvanceI less lo (j+2) l i j
    let j := partEqDecreaseJ less lo i l j
    if i > j then (l, i)
    else partEqLoop less lo fuel (swapAt l i j) (i+1) (j-1)

/-- `partitionEqual_func(data, lo, hi, pivot)`. -/
def partitionEqualRange (less : α → α → Bool) (l : List α) (lo hi pivot : Nat) :
    List α × Nat :=
  let l := swapAt l lo pivot
  partEqLoop less lo (hi+1) l (lo+1) (hi-1)

/-- The `!wasBalanced` prelude of `pdqsort_func`: scatter patterns and burn
one unit of the `limit` budget. -/
def pdqPrep (l : List α) (a b limit : Nat) (wasBalanced : Bool) : List α × Nat :=
  if wasBalanced = false then (breakPatternsRange l a b, limit - 1) else (l, limit)

/-- Pivot choice plus the reversal applied on a `decreasing` hint
(the reflected pivot is `(b-1) - (pivot-a)`). -/
def pdqChoose (less : α → α → Bool) (l : List α) (a b : Nat) : List α × Nat × SortedHint :=
  let pv := choosePivotRange less l a b
  if pv.2 = SortedHint.decreasing then
    (reverseRangeL l a b, (b - 1) - (pv.1 - a), SortedHint.increasing)
  else (l, pv.1, pv.2)

/-- The "likely already sorted" opportunistic pass of `pdqsort_func`. -/
def pdqPre (less : α → α → Bool) (l : List α) (a b : Nat)
    (wasBalanced wasPartitioned : Bool) (hint : SortedHint) : List α × Bool :=
  if wasBalanced ∧ wasPartitioned ∧ hint = SortedHint.increasing then
    presortCheck less l a b
  else (l, false)

/-- `pdqsort_func` (Go 1.21 `sort/zsortfunc.go`): the `for` loop is the tail
call that keeps the current `wasBalanced`/`wasPartitioned` flags; a genuine
recursive call resets both flags to `true`, exactly as a fresh Go call does. -/
def pdqLoop (less : α → α → Bool) : Nat → List α → Nat → Nat → Nat → Bool → Bool → List α
  | 0, l, _, _, _, _, _ => l
  | fuel+1, l, a, b, limit, wasBalanced, wasPartitioned =>
    let length := b - a
    if length ≤ 12 then insertionSortRange less l a b
    else if limit = 0 then heapSortRange less l a b
    else
      let p1 := pdqPrep l a b limit wasBalanced
      let p2 := pdqChoose less p1.1 a b
      let pivot := p2.2.1
      let pre := pdqPre less p2.1 a b wasBalanced wasPartitioned p2.2.2
      if pre.2 then pre.1
      else
        if 0 < a ∧ lessAt less pre.1 (a-1) pivot = false then
          let pe := partitionEqualRange less pre.1 a b pivot
          pdqLoop less fuel pe.1 pe.2 b p1.2 wasBalanced wasPartitioned
        else
          let pt := partitionRange less pre.1 a b pivot
          let mid := pt.2.1
          let wasBalanced := decide (min (mid - a) (b - mid) ≥ length / 8)
          if mid - a < b - mid then
            pdqLoop less fuel (pdqLoop less fuel pt.1 a mid p1.2 true true)
              (mid+1) b p1.2 wasBalanced pt.2.2
          else
            pdqLoop less fuel (pdqLoop less fuel pt.1 (mid+1) b p1.2 true true)
              a mid p1.2 wasBalanced pt.2.2

/-- `sort.Slice(x, less)`: `pdqsort_func(lessSwap, 0, n, bits.Len(uint(n)))`.
The fuel bound `8n+8` strictly dominates the number of `pdqsort_func`
activations (each partition step removes at least one element from every
subrange it recurses into). -/
def sortSliceLess (less : α → α → Bool) (l : List α) : List α :=
  pdqLoop less (8 * l.length + 8) l 0 l.length (bitsLen l.length) true true

/-- The comparison closure of `SearchService.applySorting` (an unknown field
never reports "less", leaving the order unspecified to `sort.Slice`;
validation rules invalid fields out before this point). -/
def productLess (sp : SortSpec) (x y : Product) : Bool :=
  match sp.field with
  | "price" =>
    if sp.order = "desc" then decide (y.priceValue < x.priceValue)
    else decide (x.priceValue < y.priceValue)
  | "rating" =>
    if sp.order = "desc" then decide (ParseRating y.rating < ParseRating x.rating)
    else decide (ParseRating x.rating < ParseRating y.rating)
  | "name" =>
    if sp.order = "desc" then strLt y.name x.name else strLt x.name y.name
  | _ => false

/-- `SearchService.applySorting`. -/
def applySorting (products : List Product) : Option SortSpec → List Product
  | none => products
  | some sp => sortSliceLess (productLess sp) products

/-! ## Pagination (`SearchService.applyPagination`) -/

/-- `applyPagination`.  `int(math.Ceil(float64(total)/float64(limit)))` is the
exact ceiling `⌈total/limit⌉` for every in-memory slice length and
`limit ∈ [1,100]` (a `float64` quotient can only misround across an integer
for numerators beyond `2^46·limit`), modelled as `(total + limit - 1) / limit`
in `Nat`.  A non-positive `limit` cannot reach this function (validation
forces `1 ≤ limit ≤ 100`); the model returns `0` pages for it. -/
def applyPagination (products : List Product) (page limit : Int) : List Product × Int :=
  let total : Int := products.length
  let totalPages : Int :=
    if limit ≤ 0 then 0 else ((products.length + limit.toNat - 1) / limit.toNat : Nat)
  let start := (page - 1) * limit
  if start ≥ total then ([], totalPages)
  else
    let stop := if start + limit > total then total else start + limit
    ((products.drop start.toNat).take (stop - start).toNat, totalPages)

/-! ## Cache key derivation (`RedisCache.GenerateSearchKey`, pkg/cache) -/

/-- Two-digit zero-padded decimal. -/
def pad2 (k : Nat) : String := if k < 10 then "0" ++ toString k else toString k

/-- Round half-to-even to an integer (what `fmt` does to the decimal
expansion of an exact value). -/
def roundHalfEven (n d : Int) : Int :=
  let f := Int.fdiv n d
  let r := n - f * d
  if d < 2 * r then f + 1
  else if 2 * r < d then f
  else if f % 2 = 0 then f else f + 1

/-- `fmt.Sprintf("%.2f", x)` for the nonnegative values that reach it
(`GenerateSearchKey` only formats filter values already validated `≥ 0`);
rounding is half-to-even on the exact rational, which agrees with `fmt` on
`float64` except for decimal half-way values the binary float already
nudged off the boundary — no theorem depends on those digits. -/
def fmt2 (q : Rat) : String :=
  let k := roundHalfEven (q.num * 100) q.den
  (if k < 0 then "-" else "") ++ toString (k.natAbs / 100) ++ "." ++ pad2 (k.natAbs % 100)

/-- `fmt.Sprintf("%.1f", x)`. -/
def fmt1 (q : Rat) : String :=
  let k := roundHalfEven (q.num * 10) q.den
  (if k < 0 then "-" else "") ++ toString (k.natAbs / 10) ++ "." ++ toString (k.natAbs % 10)

/-- `fmt.Sprintf("%t", b)`. -/
def fmtBool (b : Bool) : String := if b then "true" else "false"

/-- The filter fields appended to the cache key (in source order: `minp`,
`maxp`, `src`, `stock`, `rating`; zero/empty/nil fields are omitted). -/
def filterKeyPart : Option Filters → String
  | none => ""
  | some f =>
    (if 0 < f.minPrice then ":minp" ++ fmt2 f.minPrice else "")
      ++ (if 0 < f.maxPrice then ":maxp" ++ fmt2 f.maxPrice else "")
      ++ (if f.source ≠ "" then ":src" ++ f.source else "")
      ++ (match f.inStock with
          | some b => ":stock" ++ fmtBool b
          | none => "")
      ++ (if 0 < f.minRating then ":rating" ++ fmt1 f.minRating else "")

/-- The sort fields appended to the cache key. -/
def sortKeyPart : Option SortSpec → String
  | none => ""
  | some s => ":sort" ++ s.field ++ ":" ++ s.order

/-- `RedisCache.GenerateSearchKey`:
`search:{query}:{country}:p{page}:l{limit}` plus non-default filter/sort
fields. -/
def GenerateSearchKey (params : SearchParams) : String :=
  "search:" ++ params.query ++ ":" ++ params.country ++ ":p" ++ toString params.page
    ++ ":l" ++ toString params.limit
    ++ filterKeyPart params.filters ++ sortKeyPart params.sortSpec

example :
    GenerateSearchKey { query := "tv", country := "US", page := 1, limit := 10 }
      = "search:tv:US:p1:l10" := by decide

/-! ## Validation (`SearchService.validateSearchParams`) -/

def validFields : List String := ["price", "rating", "name"]

def validOrders : List String := ["asc", "desc"]

/-- The filter checks of `validateSearchParams`, in source order. -/
def checkFilters : Option Filters → Option String
  | none => none
  | some f =>
    if f.minPrice < 0 then some "minimum price cannot be negative"
    else if 0 < f.maxPrice ∧ f.maxPrice < f.minPrice then
      some "maximum price cannot be less than minimum price"
    else if f.minRating < 0 ∨ 5 < f.minRating then
      some "minimum rating must be between 0 and 5"
    else none

/-- The sort checks of `validateSearchParams` (`contains` over the valid
field/order lists). -/
def checkSort : Option SortSpec → Option String
  | none => none
  | some s =>
    if validFields.contains s.field = false then
      some ("invalid sort field: " ++ s.field ++ ". Valid fields: price, rating, name")
    else if validOrders.contains s.order = false then
      some ("invalid sort order: " ++ s.order ++ ". Valid orders: asc, desc")
    else none

/-- The in-place page/limit defaulting and clamping of
`validateSearchParams`. -/
def applyDefaults (params : SearchParams) : SearchParams :=
  let params := if params.page ≤ 0 then { params with page := 1 } else params
  let params := if params.limit ≤ 0 then { params with limit := 10 } else params
  if params.limit > 100 then { params with limit := 100 } else params

/-- `validateSearchParams`: rejects an empty query first, then applies the
page/limit defaults and clamps in place, then checks filters and sort.  The
returned params are the mutated ones. -/
def validateSearchParams (params : SearchParams) : Except String SearchParams :=
  if params.query = "" then Except.error "search query cannot be empty"
  else
    let params := applyDefaults params
    match checkFilters params.filters with
    | some e => Except.error e
    | none =>
      match checkSort params.sortSpec with
      | some e => Except.error e
      | none => Except.ok params

/-! ## Scrape fan-out (`SearchService.scrapeAllSources`) -/

/-- The six scrapers owned by `SearchService` (the Chrome scraper's fan-out
block is commented out in the source and is not spawned). -/
inductive Scraper where
  | amazon
  | ebay
  | flipkart
  | walmart
  | target
  | bestBuy
deriving DecidableEq, Repr

/-- The outcome of one scraper goroutine, as the claims individuate them:
a listing slice, a returned error (Go convention: the products slice is nil
on error, normalized to empty before the merge), a panic (recovered by the
deferred handler; the merge append is never reached), or a nil slice
(normalized to empty). -/
inductive Outcome where
  | ok (products : List Product)
  | errored
  | panicked
  | nilSlice
deriving DecidableEq, Repr

/-- What a goroutine's `addProducts` contributes to the shared slice. -/
def contribution : Outcome → List Product
  | Outcome.ok products => products
  | Outcome.errored => []
  | Outcome.panicked => []
  | Outcome.nilSlice => []

/-- The scrapers spawned for a country, in spawn order: Amazon and eBay
always; Flipkart for `IN`; Walmart, Target, Best Buy for `US` (each gated by
its own `strings.ToUpper(country)` test in the source). -/
def activeScrapers (country : String) : List Scraper :=
  [Scraper.amazon, Scraper.ebay]
    ++ (if toUpperStr country = "IN" then [Scraper.flipkart] else [])
    ++ (if toUpperStr country = "US" then [Scraper.walmart] else [])
    ++ (if toUpperStr country = "US" then [Scraper.target] else [])
    ++ (if toUpperStr country = "US" then [Scraper.bestBuy] else [])

/-- `scrapeAllSources` merge: each completing goroutine appends its whole
contribution under the mutex, so the aggregate is the concatenation of the
contributions in completion order `sched` (theorems quantify over every
`sched` that permutes the spawned scrapers). -/
def scrapeAllSources (outcomes : Scraper → Outcome) (sched : List Scraper) : List Product :=
  sched.foldl (fun acc s => acc ++ contribution (outcomes s)) []

/-! ## The orchestrator (`SearchService.SearchProducts`) -/

/-- Externally visible operations of one `SearchProducts` call, in order. -/
inductive Effect where
  | cacheGetE (key : String)
  | scrapeE (s : Scraper)
  | cacheSetE (key : String)
deriving DecidableEq, Repr

/-- Result of `RedisCache.GetSearchResults`: `ok none` is a miss, `ok (some r)`
a hit, `failed` a Redis/unmarshal error (the orchestrator treats anything but
a hit identically). -/
inductive CacheGetResult where
  | ok (r : Option SearchResponse)
  | failed
deriving DecidableEq, Repr

/-- Oracle environment for one request: cache availability and replies,
per-scraper outcomes, the fan-in completion order, and the opaque duration
strings. -/
structure Env where
  cacheAvailable : Bool
  cacheGet : String → CacheGetResult
  cacheSetFails : String → Bool
  outcomes : Scraper → Outcome
  sched : List Scraper
  duration : String := ""
  cachedDuration : String := ""

/-- The response source string (`sourceInfo` in `SearchProducts`): a fixed
default overridden for India only. -/
def sourceInfo (country : String) : String :=
  if country = "IN" then "Amazon, eBay, Flipkart" else "Amazon, eBay"

/-- `SearchService.SearchProducts`, returning the result together with the
trace of external effects. -/
def SearchProducts (env : Env) (params : SearchParams) :
    Except String SearchResponse × List Effect :=
  let params := if params.country = "" then { params with country := "IN" } else params
  match validateSearchParams params with
  | Except.error e => (Except.error e, [])
  | Except.ok params =>
    let cacheKey := if env.cacheAvailable then GenerateSearchKey params else ""
    let getEffects := if env.cacheAvailable then [Effect.cacheGetE cacheKey] else []
    let hit : Option SearchResponse :=
      if env.cacheAvailable then
        match env.cacheGet cacheKey with
        | CacheGetResult.ok (some r) => some r
        | _ => none
      else none
    match hit with
    | some cached => (Except.ok { cached with duration := env.cachedDuration }, getEffects)
    | none =>
      let country := toUpperStr params.country
      let allProducts := scrapeAllSources env.outcomes env.sched
      let scrapeEffects := (activeScrapers country).map Effect.scrapeE
      let processed := processProducts allProducts
      let filteredProducts := applyFilters processed params.filters
      let sortedProducts := applySorting filteredProducts params.sortSpec
      let pag := applyPagination sortedProducts params.page params.limit
      let response : SearchResponse := {
        query := params.query
        products := pag.1
        total := filteredProducts.length
        page := params.page
        limit := params.limit
        totalPages := pag.2
        source := sourceInfo country
        filters := params.filters
        sortSpec := params.sortSpec
        duration := env.duration }
      let setEffects :=
        if env.cacheAvailable ∧ cacheKey ≠ "" then [Effect.cacheSetE cacheKey] else []
      (Except.ok response, getEffects ++ scrapeEffects ++ setEffects)

/-! ## Claim-side predicates -/

/-- The validation-failure conditions exactly as the specification lists
them: empty query; negative minimum price; positive maximum price below the
minimum; minimum rating outside `0..5`; sort field/order not among the valid
values. -/
def validationFails (p : SearchParams) : Prop :=
  p.query = "" ∨
    (∃ f, p.filters = some f ∧
      (f.minPrice < 0 ∨ (0 < f.maxPrice ∧ f.maxPrice < f.minPrice) ∨
        f.minRating < 0 ∨ 5 < f.minRating)) ∨
    (∃ s, p.sortSpec = some s ∧ (s.field ∉ validFields ∨ s.order ∉ validOrders))

/-- Whether an `Except` result is an error. -/
def isError {ε α : Type} : Except ε α → Bool
  | Except.error _ => true
  | Except.ok _ => false

/-! ## Validation lemmas -/

theorem applyDefaults_query (p : SearchParams) : (applyDefaults p).query = p.query := by
  unfold applyDefaults
  dsimp only
  split <;> split <;> split <;> rfl

theorem applyDefaults_filters (p : SearchParams) : (applyDefaults p).filters = p.filters := by
  unfold applyDefaults
  dsimp only
  split <;> split <;> split <;> rfl

theorem applyDefaults_sortSpec (p : SearchParams) :
    (applyDefaults p).sortSpec = p.sortSpec := by
  unfold applyDefaults
  dsimp only
  split <;> split <;> split <;> rfl

theorem checkFilters_eq_none_iff (o : Option Filters) :
    checkFilters o = none ↔
      ¬ ∃ f, o = some f ∧
        (f.minPrice < 0 ∨ (0 < f.maxPrice ∧ f.maxPrice < f.minPrice) ∨
          f.minRating < 0 ∨ 5 < f.minRating) := by
  cases o with
  | none => simp [checkFilters]
  | some f =>
    simp only [checkFilters, Option.some.injEq]
    split_ifs with h1 h2 h3 <;> simp_all

theorem checkSort_eq_none_iff (o : Option SortSpec) :
    checkSort o = none ↔
      ¬ ∃ s, o = some s ∧ (s.field ∉ validFields ∨ s.order ∉ validOrders) := by
  cases o with
  | none => simp [checkSort]
  | some s =>
    simp only [checkSort, Option.some.injEq]
    split_ifs with h1 h2 <;> simp_all

theorem validateSearchParams_error_iff (p : SearchParams) :
    isError (validateSearchParams p) = true ↔ validationFails p := by
  unfold validateSearchParams validationFails
  by_cases hq : p.query = ""
  · simp [hq, isError]
  · simp only [hq, if_false]
    rw [applyDefaults_filters, applyDefaults_sortSpec] at *
    cases hf : checkFilters p.filters with
    | some e =>
      simp only [hf, isError]
      have := (checkFilters_eq_none_iff p.filters).not_left
      simp only [hf] at this
      constructor
      · intro _
        right; left
        by_contra hno
        have : checkFilters p.filters = none := by
          rw [checkFilters_eq_none_iff]; exact hno
        rw [this] at hf; cases hf
      · intro _; trivial
    | none =>
      have hfno := (checkFilters_eq_none_iff p.filters).mp hf
      cases hs : checkSort p.sortSpec with
      | some e =>
        simp only [hf, hs, isError]
        constructor
        · intro _
          right; right
          by_contra hno
          have : checkSort p.sortSpec = none := by
            rw [checkSort_eq_none_iff]; exact hno
          rw [this] at hs; cases hs
        · intro _; trivial
      | none =>
        have hsno := (checkSort_eq_none_iff p.sortSpec).mp hs
        simp only [hf, hs, isError]
        constructor
        · intro h; cases h
        · intro h
          rcases h with h | h | h
          · exact h.elim
          · exact absurd h hfno
          · exact absurd h hsno

theorem validationFails_country_default (params : SearchParams) :
    validationFails (if params.country = "" then { params with country := "IN" } else params)
      ↔ validationFails params := by
  unfold validationFails
  split <;> exact Iff.rfl

theorem searchProducts_error_iff (env : Env) (params : SearchParams) :
    isError (SearchProducts env params).1 = true ↔ validationFails params := by
  rw [← validationFails_country_default params,
    ← validateSearchParams_error_iff]
  unfold SearchProducts
  cases hv : validateSearchParams
      (if params.country = "" then { params with country := "IN" } else params) with
  | error e => simp [hv, isError]
  | ok q =>
    simp only [hv]
    split <;> simp [isError]

/-- C1: `SearchProducts` returns an error if and only if validation of the
request fails — the query is empty, the minimum price is negative, the
maximum price is positive and below the minimum, the minimum rating is
outside `0..5`, or the sort field/order is invalid; the environment `env`
(every combination of cache availability, cache replies, cache write
failures, scraper outcomes including errors and panics, and merge orders) is
universally quantified, so retriever errors, retriever panics and cache
failures never cause an error. -/
theorem C1_error_iff_validation_fails (env : Env) (params : SearchParams) :
    isError (SearchProducts env params).1 = true ↔ validationFails params :=
  searchProducts_error_iff env params

/-! ## C2: fan-out aggregation -/

theorem scrapeAllSources_eq_flatMap (outcomes : Scraper → Outcome) (sched : List Scraper) :
    scrapeAllSources outcomes sched = sched.flatMap (fun s => contribution (outcomes s)) := by
  have key : ∀ (l : List Scraper) (acc : List Product),
      List.foldl (fun acc s => acc ++ contribution (outcomes s)) acc l
        = acc ++ l.flatMap (fun s => contribution (outcomes s)) := by
    intro l
    induction l with
    | nil => intro acc; simp
    | cons x xs ih => intro acc; simp [List.foldl, ih, List.append_assoc]
  simpa [scrapeAllSources] using key sched []

/-- C2: for every assignment of per-retriever outcomes and every fan-in
completion order, the aggregate is exactly (a permutation of) the
concatenation of the contributions of the spawned retrievers, where an
erroring retriever, a panicking retriever and a nil slice each contribute
nothing; when every retriever fails the aggregate is empty; and a request
passing validation is a success whatever the outcomes. -/
theorem C2_fanout_isolation (country : String) (outcomes : Scraper → Outcome)
    (sched : List Scraper) (hs : List.Perm sched (activeScrapers country)) :
    List.Perm (scrapeAllSources outcomes sched)
        ((activeScrapers country).flatMap (fun s => contribution (outcomes s)))
    ∧ (∀ s : Scraper,
        (outcomes s = Outcome.errored ∨ outcomes s = Outcome.panicked ∨
          outcomes s = Outcome.nilSlice) → contribution (outcomes s) = [])
    ∧ ((∀ s : Scraper, ∀ products, outcomes s ≠ Outcome.ok products) →
        scrapeAllSources outcomes sched = [])
    ∧ (∀ (env : Env) (params : SearchParams), ¬ validationFails params →
        isError (SearchProducts env params).1 = false) := by
  refine ⟨?_, ?_, ?_, ?_⟩
  · rw [scrapeAllSources_eq_flatMap]
    exact hs.flatMap_right _
  · intro s h
    rcases h with h | h | h <;> rw [h] <;> rfl
  · intro hfail
    rw [scrapeAllSources_eq_flatMap]
    rw [List.flatMap_eq_nil_iff]
    intro s _
    cases ho : outcomes s with
    | ok products => exact absurd ho (hfail s products)
    | errored => rfl
    | panicked => rfl
    | nilSlice => rfl
  · intro env params hv
    have := searchProducts_error_iff env params
    cases h : isError (SearchProducts env params).1 with
    | false => rfl
    | true => exact absurd (this.mp h) hv

/-- Witness for C2 at a concrete input: region `IN`, eBay panicking,
Flipkart returning three listings, Amazon erroring, merged in the order
Flipkart, eBay, Amazon. -/
theorem C2_fanout_isolation_witness :
    List.Perm [Scraper.flipkart, Scraper.ebay, Scraper.amazon] (activeScrapers "IN")
    ∧ List.Perm
        (scrapeAllSources
          (fun s => match s with
            | Scraper.flipkart => Outcome.ok [{ name := "x" }, { name := "y" }, { name := "z" }]
            | Scraper.ebay => Outcome.panicked
            | _ => Outcome.errored)
          [Scraper.flipkart, Scraper.ebay, Scraper.amazon])
        ((activeScrapers "IN").flatMap
          (fun s => contribution ((fun s => match s with
            | Scraper.flipkart => Outcome.ok [{ name := "x" }, { name := "y" }, { name := "z" }]
            | Scraper.ebay => Outcome.panicked
            | _ => Outcome.errored) s))) := by
  constructor
  · decide
  · exact (C2_fanout_isolation "IN"
      (fun s => match s with
        | Scraper.flipkart => Outcome.ok [{ name := "x" }, { name := "y" }, { name := "z" }]
        | Scraper.ebay => Outcome.panicked
        | _ => Outcome.errored)
      [Scraper.flipkart, Scraper.ebay, Scraper.amazon] (by decide)).1

/-! ## C8: empty-query fast path (corrected: the code does not trim) -/

theorem searchProducts_empty_query (env : Env) (params : SearchParams)
    (h : params.query = "") :
    isError (SearchProducts env params).1 = true ∧ (SearchProducts env params).2 = [] := by
  unfold SearchProducts
  dsimp only
  have hq2 : (if params.country = "" then { params with country := "IN" } else params).query
      = "" := by
    split <;> exact h
  have hv : validateSearchParams
      (if params.country = "" then { params with country := "IN" } else params)
      = Except.error "search query cannot be empty" := by
    unfold validateSearchParams
    rw [if_pos hq2]
  rw [hv]
  exact ⟨rfl, rfl⟩

/-- C8 counterexample: the query `" "` (whitespace only, so empty after
trimming) is **not** rejected — `validateSearchParams` compares with `""`
without trimming — and the request proceeds to the cache and the scrapers,
returning a success. -/
def c8Params : SearchParams :=
  { query := " ", country := "US", page := 1, limit := 10 }

def c8Env : Env :=
  { cacheAvailable := true
    cacheGet := fun _ => CacheGetResult.ok none
    cacheSetFails := fun _ => false
    outcomes := fun _ => Outcome.errored
    sched := activeScrapers "US" }

theorem C8_whitespace_query_not_rejected :
    isError (SearchProducts c8Env c8Params).1 = false
    ∧ (SearchProducts c8Env c8Params).2 ≠ [] := by
  constructor
  · decide
  · decide

/-- C8 (amended): for every request whose query string is **exactly empty**
(no trimming is applied anywhere), `SearchProducts` returns a validation
error and performs no cache get/set and invokes no retriever. -/
theorem C8_exactly_empty_query_rejected (env : Env) (params : SearchParams)
    (h : params.query = "") :
    isError (SearchProducts env params).1 = true ∧ (SearchProducts env params).2 = [] :=
  searchProducts_empty_query env params h

theorem C8_exactly_empty_query_rejected_witness :
    ("" : String) = ""
    ∧ isError (SearchProducts c8Env { query := "", country := "US", page := 1, limit := 10 }).1
        = true
    ∧ (SearchProducts c8Env { query := "", country := "US", page := 1, limit := 10 }).2 = [] :=
  ⟨rfl,
    C8_exactly_empty_query_rejected c8Env
      { query := "", country := "US", page := 1, limit := 10 } rfl⟩

/-! ## C9: the response source string versus the aggregator's region table -/

/-- Display names used by the scrapers' log lines and the README. -/
def scraperName : Scraper → String
  | Scraper.amazon => "Amazon"
  | Scraper.ebay => "eBay"
  | Scraper.flipkart => "Flipkart"
  | Scraper.walmart => "Walmart"
  | Scraper.target => "Target"
  | Scraper.bestBuy => "Best Buy"

/-- Split a display string on `", "` (how the source list string names a set
of retrievers). -/
def splitCommaAux (acc : List Char) : List Char → List String
  | [] => [String.mk acc.reverse]
  | ',' :: ' ' :: rest => String.mk acc.reverse :: splitCommaAux [] rest
  | c :: rest => splitCommaAux (c :: acc) rest

def splitComma (s : String) : List String := splitCommaAux [] s.data

/-- The source string of a (successful) response. -/
def responseSource : Except String SearchResponse → String
  | Except.ok r => r.source
  | Except.error _ => ""

def c9Env : Env :=
  { cacheAvailable := false
    cacheGet := fun _ => CacheGetResult.failed
    cacheSetFails := fun _ => false
    outcomes := fun _ => Outcome.errored
    sched := activeScrapers "US" }

/-- C9 (code bug): for region `US` the aggregator spawns Amazon, eBay,
Walmart, Target and Best Buy, but the response's source string is the
hard-coded `"Amazon, eBay"` — it does not name the retriever set the static
region table selects (the README's own US example shows
`"Amazon, eBay, Walmart, Target, Best Buy"`). -/
theorem C9_source_string_us_divergence :
    responseSource
        (SearchProducts c9Env { query := "iPhone", country := "US", page := 1, limit := 10 }).1
      = "Amazon, eBay"
    ∧ activeScrapers "US"
      = [Scraper.amazon, Scraper.ebay, Scraper.walmart, Scraper.target, Scraper.bestBuy]
    ∧ splitComma "Amazon, eBay" ≠ (activeScrapers "US").map scraperName
    ∧ splitComma "Amazon, eBay, Flipkart" = (activeScrapers "IN").map scraperName := by
  refine ⟨?_, by decide, by decide, by decide⟩
  decide

/-! ## C3: pagination -/

/-- `(t + d - 1) / d` is the ceiling of `t / d`. -/
theorem ceilDiv_characterization (t d : Nat) (hd : 0 < d) :
    t ≤ ((t + d - 1) / d) * d ∧ (0 < t → ((t + d - 1) / d - 1) * d < t)
      ∧ (0 < t → 1 ≤ (t + d - 1) / d) := by
  rcases Nat.eq_zero_or_pos t with h0 | ht
  · subst h0
    have hz : (0 + d - 1) / d = 0 := Nat.div_eq_of_lt (by omega)
    rw [hz]
    exact ⟨by omega, by omega, by omega⟩
  · have heq : t + d - 1 = (t - 1) + d := by omega
    rw [heq, Nat.add_div_right _ hd]
    have h1 := Nat.div_add_mod (t - 1) d
    have h2 := Nat.mod_lt (t - 1) hd
    refine ⟨?_, ?_, ?_⟩
    · have hm : ((t - 1) / d + 1) * d = d * ((t - 1) / d) + d := by ring
      rw [hm]; omega
    · intro _
      rw [Nat.add_sub_cancel]
      have hm : (t - 1) / d * d = d * ((t - 1) / d) := Nat.mul_comm _ _
      rw [hm]; omega
    · intro _
      exact Nat.le_add_left 1 _

/-- C3: for every filtered list, every `page ≥ 1` and `limit ∈ [1,100]`,
pagination returns `listings[start : min(start+limit, total)]` with
`start = (page-1)*limit` when `start < total`, an empty page (never an
error) when `start ≥ total`, and in both cases reports
`totalPages = ⌈total/limit⌉` computed from the list it receives (the
post-filter, pre-pagination list). -/
theorem C3_pagination_formula (l : List Product) (page limit : Int)
    (_hp : 1 ≤ page) (hl1 : 1 ≤ limit) (hl2 : limit ≤ 100) :
    ((page - 1) * limit < (l.length : Int) →
      (applyPagination l page limit).1
        = (l.drop ((page - 1) * limit).toNat).take
            (min ((page - 1) * limit + limit) (l.length : Int) - (page - 1) * limit).toNat)
    ∧ ((l.length : Int) ≤ (page - 1) * limit → (applyPagination l page limit).1 = [])
    ∧ (applyPagination l page limit).2 = ((l.length + limit.toNat - 1) / limit.toNat : Nat)
    ∧ (l.length : Int) ≤ (applyPagination l page limit).2 * limit
    ∧ (0 < l.length → ((applyPagination l page limit).2 - 1) * limit < (l.length : Int)) := by
  have hd : 0 < limit.toNat := by omega
  have hlim : ((limit.toNat : Nat) : Int) = limit := Int.toNat_of_nonneg (by omega)
  have h3 : (applyPagination l page limit).2
      = ((l.length + limit.toNat - 1) / limit.toNat : Nat) := by
    unfold applyPagination
    dsimp only
    rw [if_neg (show ¬ limit ≤ 0 by omega)]
    split <;> rfl
  have hchar := ceilDiv_characterization l.length limit.toNat hd
  refine ⟨?_, ?_, h3, ?_, ?_⟩
  · intro hstart
    unfold applyPagination
    dsimp only
    rw [if_neg (not_le.mpr hstart)]
    have harg :
        (if (page - 1) * limit + limit > (l.length : Int) then (l.length : Int)
          else (page - 1) * limit + limit)
        = min ((page - 1) * limit + limit) (l.length : Int) := by
      rcases le_or_lt ((page - 1) * limit + limit) (l.length : Int) with hle | hgt
      · rw [if_neg (not_lt.mpr hle), min_eq_left hle]
      · rw [if_pos hgt, min_eq_right (le_of_lt hgt)]
    rw [harg]
  · intro hge
    unfold applyPagination
    dsimp only
    rw [if_pos hge]
  · have h4 : (l.length : Int)
        ≤ (((l.length + limit.toNat - 1) / limit.toNat : Nat) : Int)
          * ((limit.toNat : Nat) : Int) := by exact_mod_cast hchar.1
    rw [hlim] at h4
    rw [h3]
    exact h4
  · intro ht
    have hq1 := hchar.2.2 ht
    have h5 : (((l.length + limit.toNat - 1) / limit.toNat - 1 : Nat) : Int)
        * ((limit.toNat : Nat) : Int) < (l.length : Int) := by
      exact_mod_cast hchar.2.1 ht
    rw [hlim] at h5
    have e1 : (((l.length + limit.toNat - 1) / limit.toNat : Nat) : Int) - 1
        = (((l.length + limit.toNat - 1) / limit.toNat - 1 : Nat) : Int) :=
      (Nat.cast_sub hq1).symm
    rw [h3, e1]
    exact h5

/-- Concrete products `p0 … p24` for the pagination witness. -/
def l25 : List Product := (List.range 25).map fun i => { name := toString i }

theorem C3_pagination_formula_witness :
    ((1 : Int) ≤ 3 ∧ (1 : Int) ≤ 10 ∧ (10 : Int) ≤ 100)
    ∧ ((3 - 1) * 10 < (l25.length : Int) →
        (applyPagination l25 3 10).1
          = (l25.drop (((3 : Int) - 1) * 10).toNat).take
              (min (((3 : Int) - 1) * 10 + 10) (l25.length : Int) - ((3 : Int) - 1) * 10).toNat)
    ∧ (applyPagination l25 3 10).1 = l25.drop 20
    ∧ (applyPagination l25 3 10).1.length = 5
    ∧ (applyPagination l25 3 10).2 = 3
    ∧ (applyPagination l25 4 10).1 = []
    ∧ (applyPagination l25 4 10).2 = 3 := by
  refine ⟨⟨by decide, by decide, by decide⟩, ?_, by decide, by decide, by decide, by decide,
    by decide⟩
  exact (C3_pagination_formula l25 3 10 (by decide) (by decide) (by decide)).1

/-! ## C5: the filter stage -/

/-- All *specified* filter predicates hold for `p`, stated as the
specification words them: numeric price within the specified bounds, stock
flag equal to the required state when specified, normalized rating at least
the minimum when specified, and bidirectional case-insensitive substring
match on the source when specified. -/
def specifiedFiltersHold (f : Filters) (p : Product) : Prop :=
  (0 < f.minPrice → f.minPrice ≤ p.priceValue)
    ∧ (0 < f.maxPrice → p.priceValue ≤ f.maxPrice)
    ∧ (∀ b, f.inStock = some b → p.inStock = b)
    ∧ (0 < f.minRating → f.minRating ≤ ParseRating p.rating)
    ∧ (f.source ≠ "" →
        (containsSub (toLowerStr p.source).data (toLowerStr f.source).data = true
          ∨ containsSub (toLowerStr f.source).data (toLowerStr p.source).data = true))

instance specifiedFiltersHoldDecidable (f : Filters) (p : Product) :
    Decidable (specifiedFiltersHold f p) := by
  unfold specifiedFiltersHold
  infer_instance

theorem keepProduct_iff (f : Filters) (p : Product) :
    keepProduct f p = true ↔ specifiedFiltersHold f p := by
  unfold keepProduct specifiedFiltersHold
  split_ifs with h1 h2 h3 h4 h5
  · simp only [Bool.false_eq_true, false_iff]
    intro hc
    exact absurd (hc.1 h1.1) (not_le.mpr h1.2)
  · simp only [Bool.false_eq_true, false_iff]
    intro hc
    exact absurd (hc.2.1 h2.1) (not_le.mpr h2.2)
  · simp only [Bool.false_eq_true, false_iff]
    intro hc
    cases hstock : f.inStock with
    | none => rw [hstock] at h3; simp [stockMismatch] at h3
    | some b =>
      have hb := hc.2.2.1 b hstock
      rw [hstock] at h3
      simp [stockMismatch, hb] at h3
  · simp only [Bool.false_eq_true, false_iff]
    intro hc
    exact absurd (hc.2.2.2.1 h4.1) (not_le.mpr h4.2)
  · simp only [Bool.false_eq_true, false_iff]
    intro hc
    have hsm := hc.2.2.2.2 h5.1
    have h5' := h5.2
    unfold sourceMatches at h5'
    rcases hsm with h | h <;> simp [h] at h5'
  · simp only [true_iff]
    push_neg at h1 h2 h4
    refine ⟨h1, h2, ?_, h4, ?_⟩
    · intro b hb
      rw [hb] at h3
      simpa [stockMismatch] using h3
    · intro hsrc
      have hsm : sourceMatches f.source p.source = true := by
        cases hv : sourceMatches f.source p.source
        · exact absurd ⟨hsrc, hv⟩ h5
        · rfl
      unfold sourceMatches at hsm
      rcases Bool.or_eq_true_iff.mp hsm with h | h
      · exact Or.inl h
      · exact Or.inr h

/-- C5: the filter stage retains a listing iff all specified `Filter`
predicates hold, and a `nil` filter passes every listing through
unchanged. -/
theorem C5_filter_stage (ps : List Product) (f : Filters) :
    applyFilters ps (some f) = ps.filter (fun p => decide (specifiedFiltersHold f p))
    ∧ (∀ qs : List Product, applyFilters qs none = qs) := by
  constructor
  · unfold applyFilters
    apply List.filter_congr
    intro p _
    by_cases hP : specifiedFiltersHold f p
    · rw [decide_eq_true hP, (keepProduct_iff f p).mpr hP]
    · rw [decide_eq_false hP]
      cases hk : keepProduct f p
      · rfl
      · exact absurd ((keepProduct_iff f p).mp hk) hP
  · intro qs
    rfl

/-! ## C10: positive minimum-price filter drops zero-priced listings -/

/-- C10: with any positive minimum-price filter, no listing whose raw price
text parses to `0` (in particular, whose text has no parseable numeric
token) survives the filter stage that follows normalization. -/
theorem C10_min_price_drops_unparseable (ps : List Product) (f : Filters) (q : Product)
    (hmin : 0 < f.minPrice)
    (hq : q ∈ applyFilters (processProducts ps) (some f)) :
    ParsePrice q.price ≠ 0 := by
  unfold applyFilters at hq
  rw [List.mem_filter] at hq
  obtain ⟨hqmem, hkeep⟩ := hq
  unfold processProducts at hqmem
  rw [List.mem_map] at hqmem
  obtain ⟨p, _, rfl⟩ := hqmem
  have h1 := ((keepProduct_iff f _).mp hkeep).1 hmin
  intro h0
  dsimp at h1 h0
  rw [h0] at h1
  exact absurd hmin (not_lt.mpr h1)

def c10Product : Product := { price := "$5" }

def c10Filters : Filters := { minPrice := 1 }

theorem C10_min_price_drops_unparseable_witness :
    (0 : Rat) < c10Filters.minPrice
    ∧ ParsePrice ({ c10Product with priceValue := ParsePrice c10Product.price } : Product).price
        ≠ 0 :=
  ⟨by decide,
    C10_min_price_drops_unparseable [c10Product] c10Filters
      { c10Product with priceValue := ParsePrice c10Product.price }
      (by decide) (by decide)⟩

/-! ## C6: totality and values of `ParsePrice` -/

/-- C6: `ParsePrice` is total and never errors: `0` whenever the cleanup
yields no numeric token or the token fails to parse, and the specified
values on the three reference inputs (`""`, `"$1,234.56"`, `"no price"`). -/
theorem C6_parsePrice_total :
    ParsePrice "" = 0
    ∧ ParsePrice "$1,234.56" = 1234.56
    ∧ ParsePrice "no price" = 0
    ∧ (∀ s : String, findNumToken (cleanPriceChars s.data) = none → ParsePrice s = 0)
    ∧ (∀ s : String, ∀ t, findNumToken (cleanPriceChars s.data) = some t →
        parseFloatToken t = none → ParsePrice s = 0) := by
  refine ⟨by decide, ?_, by decide, ?_, ?_⟩
  · have h : ParsePrice "$1,234.56" = mkRat 123456 100 := by decide
    rw [h, Rat.mkRat_eq_div]
    norm_num
  · intro s hnone
    unfold ParsePrice
    split_ifs with h
    · rfl
    · rw [hnone]
  · intro s t hsome hfail
    unfold ParsePrice
    split_ifs with h
    · rfl
    · rw [hsome]
      dsimp only
      rw [hfail]

theorem C6_parsePrice_total_witness :
    (findNumToken (cleanPriceChars "no numeric token here".data) = none
      ∧ ParsePrice "no numeric token here" = 0)
    ∧ (findNumToken (cleanPriceChars "$1.2.3".data) = some ['1', '.', '2', '.', '3']
      ∧ parseFloatToken ['1', '.', '2', '.', '3'] = none
      ∧ ParsePrice "$1.2.3" = 0) :=
  ⟨⟨by decide, (C6_parsePrice_total).2.2.2.1 "no numeric token here" (by decide)⟩,
    ⟨by decide, by decide,
      (C6_parsePrice_total).2.2.2.2 "$1.2.3" ['1', '.', '2', '.', '3']
        (by decide) (by decide)⟩⟩

/-! ## C4: the sort stage

Every operation of the ported `sort.Slice` is a sequence of in-range swaps,
so its output is always a permutation of its input; the lemmas below push
that fact through every loop of the port. -/

def c7ParamsA : SearchParams := { query := "a:b", country := "c", page := 1, limit := 10 }

def c7ParamsB : SearchParams := { query := "a", country := "b:c", page := 1, limit := 10 }

/-- C7 counterexample: the key is built by concatenating raw field values
with `:` separators and no escaping, so two semantically distinct requests —
query `"a:b"` in region `"c"` versus query `"a"` in region `"b:c"`, both
valid and both reaching key generation — produce the *same* key
`"search:a:b:c:p1:l10"`: the derivation is not collision-resistant. -/
theorem C7_cache_key_collision :
    GenerateSearchKey c7ParamsA = GenerateSearchKey c7ParamsB
    ∧ GenerateSearchKey c7ParamsA = "search:a:b:c:p1:l10"
    ∧ c7ParamsA.query ≠ c7ParamsB.query
    ∧ c7ParamsA ≠ c7ParamsB := by
  refine ⟨by decide, by decide, by decide, by decide⟩

/-- C7 (amended): key derivation is deterministic — requests that agree on
query, region, page, page size, filters and sort always produce the same
key, and requests that differ in the query alone, or in the region alone,
always produce different keys — but it is not collision-resistant in
general: requests differing in several fields can collide when a field value
contains the `:` separator (see the counterexample). -/
theorem C7_cache_key_amended :
    (∀ p q : SearchParams, p.query = q.query → p.country = q.country → p.page = q.page →
      p.limit = q.limit → p.filters = q.filters → p.sortSpec = q.sortSpec →
      GenerateSearchKey p = GenerateSearchKey q)
    ∧ (∀ p q : SearchParams, p.country = q.country → p.page = q.page → p.limit = q.limit →
        p.filters = q.filters → p.sortSpec = q.sortSpec → p.query ≠ q.query →
        GenerateSearchKey p ≠ GenerateSearchKey q)
    ∧ (∀ p q : SearchParams, p.query = q.query → p.page = q.page → p.limit = q.limit →
        p.filters = q.filters → p.sortSpec = q.sortSpec → p.country ≠ q.country →
        GenerateSearchKey p ≠ GenerateSearchKey q) := by
  refine ⟨?_, ?_, ?_⟩
  · intro p q h1 h2 h3 h4 h5 h6
    have hpq : p = q := by cases p; cases q; simp_all
    rw [hpq]
  · intro p q h2 h3 h4 h5 h6 hne heq
    apply hne
    have hd : (GenerateSearchKey p).data = (GenerateSearchKey q).data := by rw [heq]
    unfold GenerateSearchKey at hd
    rw [h2, h3, h4, h5, h6] at hd
    simp only [String.data_append, List.append_assoc, List.cons_append, List.nil_append,
      List.cons.injEq, true_and] at hd
    exact String.ext (List.append_cancel_right hd)
  · intro p q h1 h3 h4 h5 h6 hne heq
    apply hne
    have hd : (GenerateSearchKey p).data = (GenerateSearchKey q).data := by rw [heq]
    unfold GenerateSearchKey at hd
    rw [h1, h3, h4, h5, h6] at hd
    simp only [String.data_append, List.append_assoc, List.cons_append, List.nil_append,
      List.cons.injEq, true_and] at hd
    have hd2 := List.append_cancel_left hd
    simp only [List.cons.injEq, true_and] at hd2
    exact String.ext (List.append_cancel_right hd2)

theorem C7_cache_key_amended_witness :
    ({ query := "tv", country := "US", page := 1, limit := 10 } : SearchParams).query
      ≠ ({ query := "tw", country := "US", page := 1, limit := 10 } : SearchParams).query
    ∧ GenerateSearchKey { query := "tv", country := "US", page := 1, limit := 10 }
      ≠ GenerateSearchKey { query := "tw", country := "US", page := 1, limit := 10 } :=
  ⟨by decide,
    (C7_cache_key_amended).2.1
      { query := "tv", country := "US", page := 1, limit := 10 }
      { query := "tw", country := "US", page := 1, limit := 10 }
      rfl rfl rfl rfl rfl (by decide)⟩

end PriceComparison




